import Mathlib

/-!
Shallow embedding of the equipment-actor core of the `libre-common`
repository (Go), covering:

* `src/common/utilities/managedEquipmentDefault.go` — the property
  resolver `getAllPropertiesForEquipment`, the actor constructor
  `NewManagedEquipmentDefault`, the mutators/accessors
  (`UpdatePropertyValue`, `GetProperty`, `GetPropertyValue`,
  `GetPropertyMap`) and the request-loop body `AcceptRequest`;
* `src/common/utilities/eventDefEvaluatorDefault.go` — the rule
  evaluator `EvaluateEventDef`.

Modelling conventions:

* Go `map[string]T` is modelled as an association list
  `List (String × T)` with an overwriting `mapInsert` and a `mapLookup`;
  lookups are what the claims observe, so iteration-order
  nondeterminism of Go maps never matters for the stated properties
  (where it could, theorems carry a `Nodup` hypothesis on the keys).
* Go `interface{}` values are modelled by the inductive `GoVal`
  (`null` is Go's nil interface / zero value).
* Go `error` results are `Option String` (`none` = nil) and fallible
  external calls return `Except String _`.
* External collaborators (the data-store queries
  `GetEquipmentById`, `GetEquipmentClassPropertiesAndParentById`,
  `GetEventDefinitionById`, the `gval.Evaluate` expression library,
  `domain.ConvertPropertyValueStringToTypedValue`, and the registered
  `TagChangeHandlerPort`s) are parameters: functions supplied to the
  embedded code, exactly at the call shape the Go code uses.
* `time.Now()` is an explicit `now : Nat` parameter; `time.Time{}`
  (the zero time) is `0`.
* The actor's unbuffered channel rendezvous is modelled by giving
  `AcceptRequest` the received request directly and returning the ack
  it would send (`none` when the Go code sends nothing).
* The unbounded `for currEqcId != ""` walk over the class chain takes
  an explicit `fuel : Nat`; theorems hypothesise enough fuel for the
  (by data-store contract acyclic, hence finite) chain at hand.
-/

/-- Values carried by Go `interface{}` slots: `null` is the nil
interface (also the zero value of an `interface{}` field). -/
inductive GoVal where
  | null : GoVal
  | bool : Bool → GoVal
  | num : Int → GoVal
  | str : String → GoVal
deriving DecidableEq, Repr

instance : Inhabited GoVal := ⟨GoVal.null⟩

/-- Association-list model of Go `map[string]α` assignment
`m[k] = v`: overwrites the binding for `k` if present, else appends. -/
def mapInsert {α : Type} : List (String × α) → String → α → List (String × α)
  | [], k, v => [(k, v)]
  | (k', v') :: rest, k, v =>
    if k' = k then (k, v) :: rest else (k', v') :: mapInsert rest k v

/-- Association-list model of Go map read `m[k]` (as an `Option`). -/
def mapLookup {α : Type} (m : List (String × α)) (k : String) : Option α :=
  (m.find? (fun kv => kv.1 = k)).map (fun kv => kv.2)

theorem mapLookup_insert_self {α : Type} (m : List (String × α)) (k : String) (v : α) :
    mapLookup (mapInsert m k v) k = some v := by
  induction m with
  | nil => simp [mapInsert, mapLookup]
  | cons hd tl ih =>
    by_cases h : hd.1 = k
    · simp [mapInsert, h, mapLookup]
    · simp only [mapInsert]
      rw [if_neg h]
      simpa [mapLookup, h] using ih

theorem mapLookup_insert_ne {α : Type} (m : List (String × α)) (k k' : String) (v : α)
    (h : k ≠ k') : mapLookup (mapInsert m k v) k' = mapLookup m k' := by
  induction m with
  | nil => simp [mapInsert, mapLookup, h]
  | cons hd tl ih =>
    by_cases h' : hd.1 = k
    · simp [mapInsert, h', mapLookup, h]
    · simp only [mapInsert]
      rw [if_neg h']
      by_cases h'' : hd.1 = k'
      · simp [mapLookup, h'']
      · simpa [mapLookup, h''] using ih

/-- `domain.EquipmentClass` as referenced from a property / a class
parent link: only the `Id` is consulted by the embedded code. -/
structure EquipmentClassRef where
  Id : String
deriving DecidableEq, Repr

/-- `domain.Property`: raw persisted property (`Value` is the untyped
string as persisted; `EquipmentClass.Id` is empty for instance-scoped
properties). -/
structure Property where
  Id : String
  Name : String
  DataType : String
  Value : String
  EquipmentClass : EquipmentClassRef
deriving DecidableEq, Repr

/-- `domain.Equipment` (the fields the embedded code reads). -/
structure Equipment where
  Id : String
  Name : String
  Description : String
  EquipmentLevel : String
  EquipmentClass : EquipmentClassRef
  Properties : List Property
deriving DecidableEq, Repr

/-- `domain.EquipmentClassPropertiesAndParent`: a class's declared
properties plus its (possibly empty-id) parent reference. -/
structure EquipmentClassPropertiesAndParent where
  Id : String
  Properties : List Property
  Parent : EquipmentClassRef
deriving DecidableEq, Repr

/-- `domain.EquipmentPropertyDescriptor`: the resolved, typed form
held by the actor. -/
structure EquipmentPropertyDescriptor where
  Name : String
  DataType : String
  Value : GoVal
  ClassPropertyId : String
  EquipmentClassId : String
  LastUpdate : Nat
deriving DecidableEq, Repr

/-- The Go zero value of `domain.EquipmentPropertyDescriptor`, produced
by reading a missing key of `s.props`. -/
def zeroDescriptor : EquipmentPropertyDescriptor :=
  { Name := "", DataType := "", Value := GoVal.null, ClassPropertyId := "",
    EquipmentClassId := "", LastUpdate := 0 }

/-- `domain.EquipmentEventDescriptor` (opaque to the claims: only
appended to the actor's event log). -/
structure EquipmentEventDescriptor where
  Name : String
  Value : GoVal
deriving DecidableEq, Repr

/-- The data-store transaction port: the two lookup queries the
property resolver performs (`queries.GetEquipmentById`,
`queries.GetEquipmentClassPropertiesAndParentById`), modelled as
functions returning the entity or an error. -/
structure LibreDataStoreTxn where
  getEquipmentById : String → Except String Equipment
  getEquipmentClassPropertiesAndParentById :
    String → Except String EquipmentClassPropertiesAndParent

/-- The body of `for _, p := range ps { fullPropertyList[p.Name] = p }`:
merge a declared property list into the accumulated map by `Name`,
later entries overwriting earlier ones. -/
def mergeProps (acc : List (String × Property)) (ps : List Property) :
    List (String × Property) :=
  ps.foldl (fun a p => mapInsert a p.Name p) acc

/-- The `for currEqcId != ""` walk of `getAllPropertiesForEquipment`
(managedEquipmentDefault.go lines 78-91): look the current class up,
merge its properties, follow `Parent.Id`; on a lookup failure set
`currEqcId = ""` so the loop exits with that error. `fuel` bounds the
iteration count (the Go loop is unbounded; the chain is acyclic by
data-store contract). -/
def walkClasses (lookup : String → Except String EquipmentClassPropertiesAndParent) :
    Nat → String → List (String × Property) → List (String × Property) × Option String
  | 0, _, acc => (acc, none)
  | fuel + 1, currEqcId, acc =>
    if currEqcId = "" then (acc, none)
    else
      match lookup currEqcId with
      | Except.ok eqcInst =>
        walkClasses lookup fuel eqcInst.Parent.Id (mergeProps acc eqcInst.Properties)
      | Except.error e => (acc, some e)

/-- `getAllPropertiesForEquipment` (managedEquipmentDefault.go lines
66-94): seed the result with the instance's own properties, then walk
up the class chain merging each class's properties by name; a failed
equipment lookup returns the empty map and the error, a failed class
lookup stops the walk and returns what was gathered plus the error. -/
def getAllPropertiesForEquipment (txn : LibreDataStoreTxn) (eqId : String) (fuel : Nat) :
    List (String × Property) × Option String :=
  match txn.getEquipmentById eqId with
  | Except.error e => ([], some e)
  | Except.ok eqInst =>
    walkClasses txn.getEquipmentClassPropertiesAndParentById fuel
      eqInst.EquipmentClass.Id (mergeProps [] eqInst.Properties)

/-- `domain` ServiceType constants: the tagged union discriminator of
`EquipmentServiceRequest` (SVCRQST_TAGDATA etc.). -/
inductive ServiceType where
  | TAGDATA : ServiceType
  | TAGDATA_ACK : ServiceType
  | SHUTDOWN : ServiceType
  | SHUTDOWN_ACK : ServiceType
deriving DecidableEq, Repr

/-- `domain.StdMessageStruct`: the embedded tag-change payload (owning
asset, item name, item value, category). -/
structure StdMessageStruct where
  OwningAssetId : String
  ItemName : String
  ItemValue : String
  Category : String
deriving DecidableEq, Repr

/-- The Go zero value `domain.StdMessageStruct{}`. -/
def zeroStdMessage : StdMessageStruct :=
  { OwningAssetId := "", ItemName := "", ItemValue := "", Category := "" }

/-- `domain.EquipmentServiceRequest`. -/
structure EquipmentServiceRequest where
  ServiceType : ServiceType
  Time : Nat
  Message : String
  TagInfo : StdMessageStruct
deriving DecidableEq, Repr

/-- `ports.TagChangeHandlerPort`: `HandleTagChange` may mutate the
shared handler context (modelled by returning the updated context next
to the Go `error`), `GetAckMessage` turns that error into ack text. -/
structure TagChangeHandlerPort where
  HandleTagChange :
    StdMessageStruct → List (String × GoVal) → Option String × List (String × GoVal)
  GetAckMessage : Option String → String

/-- The actor state of `managedEquipmentDefault` (the channel itself is
not part of the state model; `AcceptRequest` below receives the request
as an argument and returns the ack it would send). -/
structure managedEquipmentDefault where
  EquipInst : Equipment
  ConfigLevel : Int
  props : List (String × EquipmentPropertyDescriptor)
  events : List EquipmentEventDescriptor
deriving Repr

/-- Descriptor built for one resolved property by
`NewManagedEquipmentDefault`'s seeding loop (lines 43-60): convert the
raw string value per DataType (on conversion failure the value stays
nil and the error is only logged), record the owning class id, and a
`ClassPropertyId` only when the winning definition came from a class. -/
def mkSeedDescriptor (convert : String → GoVal → Except String GoVal)
    (name : String) (prop : Property) : EquipmentPropertyDescriptor :=
  let val : GoVal :=
    match convert prop.DataType (GoVal.str prop.Value) with
    | Except.ok v => v
    | Except.error _ => GoVal.null
  let clsPropId : String := if prop.EquipmentClass.Id ≠ "" then prop.Id else ""
  { Name := name, DataType := prop.DataType, Value := val, ClassPropertyId := clsPropId,
    EquipmentClassId := prop.EquipmentClass.Id, LastUpdate := 0 }

/-- `NewManagedEquipmentDefault` (lines 26-64): resolve all properties
once; only when resolution reported no error are the resolved entries
converted and installed as the actor's property map — on a resolver
error `s.props` keeps its initial empty map.  `convert` stands for
`domain.ConvertPropertyValueStringToTypedValue`. -/
def NewManagedEquipmentDefault (convert : String → GoVal → Except String GoVal)
    (dataStore : LibreDataStoreTxn) (fuel : Nat) (eqInst : Equipment) :
    managedEquipmentDefault :=
  let s : managedEquipmentDefault :=
    { EquipInst := eqInst, ConfigLevel := 0, props := [], events := [] }
  match getAllPropertiesForEquipment dataStore eqInst.Id fuel with
  | (proplist, none) =>
    { s with
      props := proplist.foldl
        (fun acc nameProp =>
          mapInsert acc nameProp.1 (mkSeedDescriptor convert nameProp.1 nameProp.2)) [] }
  | (_, some _) => s

/-- `GetProperty` (lines 118-120): `s.props[name]`, the zero descriptor
when absent. -/
def GetProperty (s : managedEquipmentDefault) (name : String) :
    EquipmentPropertyDescriptor :=
  match mapLookup s.props name with
  | some pd => pd
  | none => zeroDescriptor

/-- `GetPropertyValue` (lines 115-117): `s.props[propName].Value`. -/
def GetPropertyValue (s : managedEquipmentDefault) (propName : String) : GoVal :=
  (GetProperty s propName).Value

/-- `GetPropertyMap` (lines 184-186). -/
def GetPropertyMap (s : managedEquipmentDefault) :
    List (String × EquipmentPropertyDescriptor) :=
  s.props

/-- `UpdatePropertyValue` (lines 96-106): read the existing descriptor,
convert the raw value per its DataType; on success store the updated
Value and LastUpdate (= now).  The Go function ends in `return nil`, so
the second component (the returned error) is `none` on both paths —
a conversion failure leaves the property untouched but is not
returned. -/
def UpdatePropertyValue (convert : String → GoVal → Except String GoVal) (now : Nat)
    (s : managedEquipmentDefault) (propName : String) (propValue : GoVal) :
    managedEquipmentDefault × Option String :=
  let pd := GetProperty s propName
  match convert pd.DataType propValue with
  | Except.ok val =>
    let pd' := { pd with Value := val, LastUpdate := now }
    ({ s with props := mapInsert s.props propName pd' }, none)
  | Except.error _ => (s, none)

/-- The TAGDATA handler loop of `AcceptRequest` (lines 153-162): invoke
each handler in registration order against the tag payload, threading
the shared handler context, appending each handler's ack message
(handler errors are only logged). Returns the accumulated ack text and
final context. -/
def runTagHandlers (tagInfo : StdMessageStruct) :
    List TagChangeHandlerPort → String → List (String × GoVal) →
    String × List (String × GoVal)
  | [], ackMsg, ctx => (ackMsg, ctx)
  | handler :: rest, ackMsg, ctx =>
    let r := handler.HandleTagChange tagInfo ctx
    runTagHandlers tagInfo rest (ackMsg ++ handler.GetAckMessage r.1) r.2

/-- `AcceptRequest` (lines 147-182) on one received request: dispatch
by ServiceType.  TAGDATA: stamp the payload's owning asset with this
actor's equipment id, run all handlers, reply TAGDATA_ACK carrying the
concatenated ack text, return true.  SHUTDOWN: reply SHUTDOWN_ACK,
return false.  Any other ServiceType falls through the switch: nothing
is sent (`none`) and true is returned. -/
def AcceptRequest (s : managedEquipmentDefault)
    (tagChangeHandlers : List TagChangeHandlerPort)
    (rqst : EquipmentServiceRequest) (now : Nat) :
    Option EquipmentServiceRequest × Bool :=
  match rqst.ServiceType with
  | ServiceType.TAGDATA =>
    let tagInfo := { rqst.TagInfo with OwningAssetId := s.EquipInst.Id }
    let r := runTagHandlers tagInfo tagChangeHandlers "" []
    (some { ServiceType := ServiceType.TAGDATA_ACK, Time := now, Message := r.1,
            TagInfo := zeroStdMessage }, true)
  | ServiceType.SHUTDOWN =>
    (some { ServiceType := ServiceType.SHUTDOWN_ACK, Time := now,
            Message := "Shutdown request acknowledged", TagInfo := zeroStdMessage },
     false)
  | _ => (none, true)

/-- One `PayloadFields` entry of a `domain.EventDefinition`. -/
structure PayloadField where
  Name : String
  Expression : String
deriving DecidableEq, Repr

/-- One `PayloadProperties` entry of a `domain.EventDefinition` (only
its `Name` is read). -/
structure PayloadProperty where
  Name : String
deriving DecidableEq, Repr

/-- `domain.EventDefinition`. -/
structure EventDefinition where
  Id : String
  TriggerExpression : String
  PayloadFields : List PayloadField
  PayloadProperties : List PayloadProperty
deriving DecidableEq, Repr

/-- Go `fmt.Sprintf("%t", b)`. -/
def fmtBool (b : Bool) : String :=
  if b then "true" else "false"

/-- Go `strconv.ParseBool`: accepts exactly 1, t, T, TRUE, true, True,
0, f, F, FALSE, false, False. -/
def parseBool (s : String) : Except String Bool :=
  if s = "1" ∨ s = "t" ∨ s = "T" ∨ s = "TRUE" ∨ s = "true" ∨ s = "True" then
    Except.ok true
  else if s = "0" ∨ s = "f" ∨ s = "F" ∨ s = "FALSE" ∨ s = "false" ∨ s = "False" then
    Except.ok false
  else
    Except.error ("parsing " ++ s ++ ": invalid syntax")

theorem parseBool_fmtBool (b : Bool) : parseBool (fmtBool b) = Except.ok b := by
  cases b <;> rfl

/-- The evaluator's external dependencies: the event-definition lookup
`queries.GetEventDefinitionById` (through the data-store port held in
the `eventDefEvaluatorDefault` struct) and the expression library call
`gval.Evaluate(expr, vals)`. -/
structure eventDefEvaluatorDefault where
  getEventDefinitionById : String → Except String EventDefinition
  gvalEvaluate : String → List (String × GoVal) → Except String GoVal

/-- The variable environment built by `EvaluateEventDef` (lines 40-48):
`vals` starts from the actor's property map (each descriptor
contributing its `Value` under its key), then — when a context was
supplied — every `evalContext` entry is written over it, so a
caller-supplied binding replaces a stored property value of the same
key. -/
def buildVals (propMap : List (String × EquipmentPropertyDescriptor))
    (evalContext : Option (List (String × GoVal))) : List (String × GoVal) :=
  let vals := propMap.foldl (fun a kv => mapInsert a kv.1 kv.2.Value) []
  match evalContext with
  | none => vals
  | some ctx => ctx.foldl (fun a kv => mapInsert a kv.1 kv.2) vals

/-- The `PayloadFields` loop (lines 70-79): evaluate each field's
expression against `vals` in declared order, inserting successes into
the field map; the first failure breaks out of the loop, leaving later
fields unevaluated and recording that first error in `fieldErr`. -/
def evalPayloadFields (s : eventDefEvaluatorDefault) (vals : List (String × GoVal)) :
    List PayloadField → List (String × GoVal) →
    List (String × GoVal) × Option String
  | [], fieldMap => (fieldMap, none)
  | field :: rest, fieldMap =>
    match s.gvalEvaluate field.Expression vals with
    | Except.ok fieldVal => evalPayloadFields s vals rest (mapInsert fieldMap field.Name fieldVal)
    | Except.error fieldErr => (fieldMap, some fieldErr)

/-- The `PayloadProperties` loop (lines 80-82): each listed property
name is resolved by direct lookup `(*mgdEq).GetPropertyValue(name)`
and written into the field map. -/
def addPayloadProperties (mgdEq : managedEquipmentDefault)
    (payloadProps : List PayloadProperty) (fieldMap : List (String × GoVal)) :
    List (String × GoVal) :=
  payloadProps.foldl (fun m p => mapInsert m p.Name (GetPropertyValue mgdEq p.Name)) fieldMap

/-- `EvaluateEventDef` (eventDefEvaluatorDefault.go lines 32-98):
look the definition up, build `vals` from the actor's property map
overlaid with `evalContext`, evaluate the trigger, branch on its
dynamic type (only `bool` counts; the bool is round-tripped through
`fmt.Sprintf("%t", ·)` / `strconv.ParseBool`).  A true trigger
evaluates the payload fields (first failure stops that loop), then
always appends every `PayloadProperties` entry, and returns
`(true, def, payload, fieldErr)`.  A false trigger returns
`(false, def, nil, nil)`.  A non-bool trigger result falls through to
`return false, nil, nil, err` with `err` still nil; a lookup or
evaluation error reaches the same return with that error. -/
def EvaluateEventDef (s : eventDefEvaluatorDefault) (mgdEq : managedEquipmentDefault)
    (eventDefId : String) (evalContext : Option (List (String × GoVal))) :
    Bool × Option EventDefinition × Option (List (String × GoVal)) × Option String :=
  match s.getEventDefinitionById eventDefId with
  | Except.error err => (false, none, none, some err)
  | Except.ok evtDef =>
    let vals := buildVals (GetPropertyMap mgdEq) evalContext
    match s.gvalEvaluate evtDef.TriggerExpression vals with
    | Except.error err => (false, none, none, some err)
    | Except.ok result =>
      match result with
      | GoVal.bool b =>
        match parseBool (fmtBool b) with
        | Except.ok retBool =>
          if retBool then
            let fr := evalPayloadFields s vals evtDef.PayloadFields []
            let fieldMap := addPayloadProperties mgdEq evtDef.PayloadProperties fr.1
            (retBool, some evtDef, some fieldMap, fr.2)
          else
            (retBool, some evtDef, none, none)
        | Except.error err => (false, none, none, some err)
      | _ => (false, none, none, none)

/-! ## Class-chain characterisations for the property resolver -/

/-- The class-ancestry walk starting at `id` resolves completely:
every id on the chain (until a class with an empty `Parent.Id`) looks
up successfully, yielding the listed classes in walk order. -/
inductive ChainResolves
    (lookup : String → Except String EquipmentClassPropertiesAndParent) :
    String → List EquipmentClassPropertiesAndParent → Prop where
  | nil : ChainResolves lookup "" []
  | cons {id : String} {c : EquipmentClassPropertiesAndParent}
      {cs : List EquipmentClassPropertiesAndParent}
      (hne : id ≠ "") (hlk : lookup id = Except.ok c)
      (htail : ChainResolves lookup c.Parent.Id cs) :
      ChainResolves lookup id (c :: cs)

/-- The class-ancestry walk starting at `id` first resolves the listed
classes in order and then hits an id whose lookup fails with `e`. -/
inductive ChainFailsAt
    (lookup : String → Except String EquipmentClassPropertiesAndParent) :
    String → List EquipmentClassPropertiesAndParent → String → Prop where
  | here {id : String} {e : String}
      (hne : id ≠ "") (hlk : lookup id = Except.error e) :
      ChainFailsAt lookup id [] e
  | step {id : String} {c : EquipmentClassPropertiesAndParent}
      {cs : List EquipmentClassPropertiesAndParent} {e : String}
      (hne : id ≠ "") (hlk : lookup id = Except.ok c)
      (htail : ChainFailsAt lookup c.Parent.Id cs e) :
      ChainFailsAt lookup id (c :: cs) e

/-- Merging the properties of a list of classes, in order, into an
accumulated map (the effect of the walk's merge steps). -/
def foldMergeClasses (acc : List (String × Property))
    (cs : List EquipmentClassPropertiesAndParent) : List (String × Property) :=
  cs.foldl (fun a c => mergeProps a c.Properties) acc

theorem walkClasses_empty_id
    (lookup : String → Except String EquipmentClassPropertiesAndParent)
    (fuel : Nat) (acc : List (String × Property)) :
    walkClasses lookup fuel "" acc = (acc, none) := by
  cases fuel <;> simp [walkClasses]

theorem walkClasses_of_chainResolves
    (lookup : String → Except String EquipmentClassPropertiesAndParent)
    {id : String} {cs : List EquipmentClassPropertiesAndParent}
    (hchain : ChainResolves lookup id cs) :
    ∀ fuel acc, cs.length ≤ fuel →
      walkClasses lookup fuel id acc = (foldMergeClasses acc cs, none) := by
  induction hchain with
  | nil =>
    intro fuel acc _
    simpa [foldMergeClasses] using walkClasses_empty_id lookup fuel acc
  | cons hne hlk _ ih =>
    intro fuel acc hfuel
    cases fuel with
    | zero => simp at hfuel
    | succ f =>
      simp only [List.length_cons, Nat.succ_le_succ_iff] at hfuel
      simp only [walkClasses, if_neg hne, hlk]
      exact ih f _ hfuel

theorem walkClasses_of_chainFailsAt
    (lookup : String → Except String EquipmentClassPropertiesAndParent)
    {id : String} {cs : List EquipmentClassPropertiesAndParent} {e : String}
    (hchain : ChainFailsAt lookup id cs e) :
    ∀ fuel acc, cs.length < fuel →
      walkClasses lookup fuel id acc = (foldMergeClasses acc cs, some e) := by
  induction hchain with
  | here hne hlk =>
    intro fuel acc hfuel
    cases fuel with
    | zero => simp at hfuel
    | succ f => simp [walkClasses, if_neg hne, hlk, foldMergeClasses]
  | step hne hlk _ ih =>
    intro fuel acc hfuel
    cases fuel with
    | zero => simp at hfuel
    | succ f =>
      simp only [List.length_cons, Nat.succ_lt_succ_iff] at hfuel
      simp only [walkClasses, if_neg hne, hlk]
      exact ih f _ hfuel

/-- C3: for every equipment instance, property resolution seeds the
result with the instance's own properties and merges each class of the
(fully resolving) ancestry chain walking upward, each more ancestral
definition overwriting the entry already present for the same Name;
in particular, for a 2-level chain where the instance, its class and
the parent class each define a property named `n`, the resolved value
for `n` is the parent class's property. -/
theorem getAllProperties_ancestorPrecedence :
    (∀ (txn : LibreDataStoreTxn) (eqId : String) (fuel : Nat) (eqInst : Equipment)
        (cs : List EquipmentClassPropertiesAndParent),
      txn.getEquipmentById eqId = Except.ok eqInst →
      ChainResolves txn.getEquipmentClassPropertiesAndParentById
        eqInst.EquipmentClass.Id cs →
      cs.length ≤ fuel →
      getAllPropertiesForEquipment txn eqId fuel =
        (foldMergeClasses (mergeProps [] eqInst.Properties) cs, none)) ∧
    (∀ (txn : LibreDataStoreTxn) (eqId : String) (fuel : Nat) (eqInst : Equipment)
        (c1 c2 : EquipmentClassPropertiesAndParent) (n : String) (p0 p1 p2 : Property),
      txn.getEquipmentById eqId = Except.ok eqInst →
      eqInst.Properties = [p0] → p0.Name = n →
      eqInst.EquipmentClass.Id = c1.Id → c1.Id ≠ "" →
      txn.getEquipmentClassPropertiesAndParentById c1.Id = Except.ok c1 →
      c1.Properties = [p1] → p1.Name = n →
      c1.Parent.Id = c2.Id → c2.Id ≠ "" →
      txn.getEquipmentClassPropertiesAndParentById c2.Id = Except.ok c2 →
      c2.Properties = [p2] → p2.Name = n →
      c2.Parent.Id = "" →
      2 ≤ fuel →
      mapLookup (getAllPropertiesForEquipment txn eqId fuel).1 n = some p2) := by
  constructor
  · intro txn eqId fuel eqInst cs heq hchain hfuel
    simp only [getAllPropertiesForEquipment, heq]
    exact walkClasses_of_chainResolves _ hchain fuel _ hfuel
  · intro txn eqId fuel eqInst c1 c2 n p0 p1 p2 heq hprops0 hn0 hcls hne1 hlk1
      hprops1 hn1 hpar1 hne2 hlk2 hprops2 hn2 hpar2 hfuel
    have hchain : ChainResolves txn.getEquipmentClassPropertiesAndParentById
        eqInst.EquipmentClass.Id [c1, c2] := by
      rw [hcls]
      refine ChainResolves.cons hne1 hlk1 ?_
      rw [hpar1]
      refine ChainResolves.cons hne2 hlk2 ?_
      rw [hpar2]
      exact ChainResolves.nil
    have heqn : getAllPropertiesForEquipment txn eqId fuel =
        (foldMergeClasses (mergeProps [] eqInst.Properties) [c1, c2], none) := by
      simp only [getAllPropertiesForEquipment, heq]
      exact walkClasses_of_chainResolves _ hchain fuel _ (by simp [hfuel])
    rw [heqn]
    simp [foldMergeClasses, mergeProps, hprops0, hprops1, hprops2, hn0, hn1, hn2,
      mapInsert, mapLookup]

/-- C4: for every equipment instance whose class-ancestry walk hits a
failing class lookup after resolving the classes `cs`, resolution
returns exactly the instance's own properties merged with those of
`cs` (the entries gathered before the failure point) together with the
non-nil lookup error. -/
theorem getAllProperties_classLookupFailure
    (txn : LibreDataStoreTxn) (eqId : String) (fuel : Nat) (eqInst : Equipment)
    (cs : List EquipmentClassPropertiesAndParent) (e : String)
    (heq : txn.getEquipmentById eqId = Except.ok eqInst)
    (hchain : ChainFailsAt txn.getEquipmentClassPropertiesAndParentById
      eqInst.EquipmentClass.Id cs e)
    (hfuel : cs.length < fuel) :
    getAllPropertiesForEquipment txn eqId fuel =
      (foldMergeClasses (mergeProps [] eqInst.Properties) cs, some e) := by
  simp only [getAllPropertiesForEquipment, heq]
  exact walkClasses_of_chainFailsAt _ hchain fuel _ hfuel

/-! ## Concrete fixtures for witnesses -/

/-- Instance-scoped property "P" (value "own"). -/
def propOwnW : Property :=
  { Id := "p0", Name := "P", DataType := "string", Value := "own",
    EquipmentClass := { Id := "" } }

/-- Class-scoped property "P" on class cls1 (value "class"). -/
def propClsW : Property :=
  { Id := "p1", Name := "P", DataType := "string", Value := "class",
    EquipmentClass := { Id := "cls1" } }

/-- Class-scoped property "P" on parent class cls2 (value "parent"). -/
def propParW : Property :=
  { Id := "p2", Name := "P", DataType := "string", Value := "parent",
    EquipmentClass := { Id := "cls2" } }

/-- Equipment instance eq1 of class cls1, owning property "P". -/
def eqInstW : Equipment :=
  { Id := "eq1", Name := "Line1", Description := "a line", EquipmentLevel := "Line",
    EquipmentClass := { Id := "cls1" }, Properties := [propOwnW] }

/-- Class cls1 (parent cls2) declaring "P". -/
def clsW1 : EquipmentClassPropertiesAndParent :=
  { Id := "cls1", Properties := [propClsW], Parent := { Id := "cls2" } }

/-- Parent class cls2 (no parent) declaring "P". -/
def clsW2 : EquipmentClassPropertiesAndParent :=
  { Id := "cls2", Properties := [propParW], Parent := { Id := "" } }

/-- Store in which the whole eq1 → cls1 → cls2 chain resolves. -/
def txnW : LibreDataStoreTxn :=
  { getEquipmentById := fun id =>
      if id = "eq1" then Except.ok eqInstW else Except.error "equipment not found",
    getEquipmentClassPropertiesAndParentById := fun id =>
      if id = "cls1" then Except.ok clsW1
      else if id = "cls2" then Except.ok clsW2
      else Except.error "class not found" }

/-- Store in which eq1 and cls1 resolve but the cls2 lookup fails. -/
def txnW4 : LibreDataStoreTxn :=
  { getEquipmentById := fun id =>
      if id = "eq1" then Except.ok eqInstW else Except.error "equipment not found",
    getEquipmentClassPropertiesAndParentById := fun id =>
      if id = "cls1" then Except.ok clsW1 else Except.error "class not found" }

/-- C3 witness: on the concrete 2-level chain with distinct values
"own"/"class"/"parent" for property "P", resolution yields the parent
class's property. -/
theorem getAllProperties_ancestorPrecedence_witness :
    mapLookup (getAllPropertiesForEquipment txnW "eq1" 2).1 "P" = some propParW :=
  getAllProperties_ancestorPrecedence.2 txnW "eq1" 2 eqInstW clsW1 clsW2 "P"
    propOwnW propClsW propParW rfl rfl rfl rfl (by decide) rfl rfl rfl rfl
    (by decide) rfl rfl rfl rfl (by decide)

/-- C4 witness: with the cls2 lookup failing, resolution returns the
instance property overwritten by cls1's "P" (the entries merged before
the failure point) together with the lookup error. -/
theorem getAllProperties_classLookupFailure_witness :
    getAllPropertiesForEquipment txnW4 "eq1" 3 =
      ([("P", propClsW)], some "class not found") := by
  have h := getAllProperties_classLookupFailure txnW4 "eq1" 3 eqInstW [clsW1]
    "class not found" rfl
    (ChainFailsAt.step (by decide) rfl (ChainFailsAt.here (by decide) rfl))
    (by decide)
  exact h.trans (by rfl)

/-- Descriptor for the "temp" property of the fixture actor. -/
def descTempW : EquipmentPropertyDescriptor :=
  { Name := "temp", DataType := "number", Value := GoVal.num 150,
    ClassPropertyId := "", EquipmentClassId := "", LastUpdate := 0 }

/-- Fixture actor owning one resolved property "temp". -/
def actorW : managedEquipmentDefault :=
  { EquipInst := eqInstW, ConfigLevel := 0, props := [("temp", descTempW)],
    events := [] }

/-- A converter (standing for
`domain.ConvertPropertyValueStringToTypedValue`) that rejects every
raw value. -/
def convertRejectW : String → GoVal → Except String GoVal :=
  fun _ _ => Except.error "conversion failed"

/-- A converter that accepts every raw value unchanged. -/
def convertOkW : String → GoVal → Except String GoVal :=
  fun _ v => Except.ok v

/-- A descriptor with its Value and LastUpdate replaced (the update
`UpdatePropertyValue` performs on success). -/
def descWithValue (pd : EquipmentPropertyDescriptor) (val : GoVal) (now : Nat) :
    EquipmentPropertyDescriptor :=
  { pd with Value := val, LastUpdate := now }

/-- C1 counterexample: on the actor `actorW`, converting "abc" for
property "temp" fails, the property map is left unchanged — and yet
`UpdatePropertyValue` returns `none` (Go `nil`), not the conversion
error, refuting the claim that the conversion error is returned as the
function's result. -/
theorem updatePropertyValue_errorSwallowed_counterexample :
    convertRejectW (GetProperty actorW "temp").DataType (GoVal.str "abc")
        = Except.error "conversion failed" ∧
      UpdatePropertyValue convertRejectW 7 actorW "temp" (GoVal.str "abc")
        = (actorW, none) :=
  ⟨rfl, rfl⟩

/-- C1 (amended): `UpdatePropertyValue` converts the raw value using
the existing descriptor's DataType; on success it stores the
descriptor with the new Value and LastUpdate = now; on conversion
failure the state is unchanged; in both cases the returned error is
`none` (the Go function ends in `return nil`; the conversion error is
never returned). -/
theorem updatePropertyValue_amended
    (convert : String → GoVal → Except String GoVal) (now : Nat)
    (s : managedEquipmentDefault) (propName : String) (propValue : GoVal) :
    (∀ val, convert (GetProperty s propName).DataType propValue = Except.ok val →
      (UpdatePropertyValue convert now s propName propValue).1.props
          = mapInsert s.props propName (descWithValue (GetProperty s propName) val now)
        ∧ GetProperty (UpdatePropertyValue convert now s propName propValue).1 propName
          = descWithValue (GetProperty s propName) val now
        ∧ (UpdatePropertyValue convert now s propName propValue).2 = none) ∧
    (∀ e, convert (GetProperty s propName).DataType propValue = Except.error e →
      UpdatePropertyValue convert now s propName propValue = (s, none)) := by
  constructor
  · intro val h
    refine ⟨?_, ?_, ?_⟩ <;>
      simp only [UpdatePropertyValue, h] <;>
      simp [descWithValue, GetProperty, mapLookup_insert_self]
  · intro e h
    simp only [UpdatePropertyValue, h]

/-- C1 amended witness: a successful conversion stores the new value
with LastUpdate = 7 and returns nil; a failing conversion leaves
`actorW` unchanged and returns nil. -/
theorem updatePropertyValue_amended_witness :
    (UpdatePropertyValue convertOkW 7 actorW "temp" (GoVal.num 42)).1.props
        = mapInsert actorW.props "temp"
            (descWithValue (GetProperty actorW "temp") (GoVal.num 42) 7)
      ∧ (UpdatePropertyValue convertOkW 7 actorW "temp" (GoVal.num 42)).2 = none
      ∧ UpdatePropertyValue convertRejectW 7 actorW "temp" (GoVal.str "x")
          = (actorW, none) :=
  ⟨((updatePropertyValue_amended convertOkW 7 actorW "temp" (GoVal.num 42)).1
      (GoVal.num 42) rfl).1,
   ((updatePropertyValue_amended convertOkW 7 actorW "temp" (GoVal.num 42)).1
      (GoVal.num 42) rfl).2.2,
   (updatePropertyValue_amended convertRejectW 7 actorW "temp" (GoVal.str "x")).2
      "conversion failed" rfl⟩

/-- C10: when initial property resolution reports an error, the actor
built by `NewManagedEquipmentDefault` has a completely empty property
map — the entries gathered before the failure point are discarded and
invisible through `GetPropertyMap`, `GetProperty` and
`GetPropertyValue`. -/
theorem newManagedEquipment_resolverError_empty
    (convert : String → GoVal → Except String GoVal)
    (dataStore : LibreDataStoreTxn) (fuel : Nat) (eqInst : Equipment) (e : String)
    (h : (getAllPropertiesForEquipment dataStore eqInst.Id fuel).2 = some e) :
    (NewManagedEquipmentDefault convert dataStore fuel eqInst).props = [] ∧
    GetPropertyMap (NewManagedEquipmentDefault convert dataStore fuel eqInst) = [] ∧
    (∀ n, GetProperty (NewManagedEquipmentDefault convert dataStore fuel eqInst) n
      = zeroDescriptor) ∧
    (∀ n, GetPropertyValue (NewManagedEquipmentDefault convert dataStore fuel eqInst) n
      = GoVal.null) := by
  rcases hr : getAllPropertiesForEquipment dataStore eqInst.Id fuel with ⟨pl, errv⟩
  rw [hr] at h
  simp only at h
  subst h
  refine ⟨?_, ?_, ?_, ?_⟩ <;>
    simp [NewManagedEquipmentDefault, hr, GetPropertyMap, GetProperty,
      GetPropertyValue, mapLookup, zeroDescriptor]

/-- C10 witness: resolving eq1 against the store whose cls2 lookup
fails gathered the "P" entry before failing, yet the constructed
actor's map is empty and "P" reads as nil. -/
theorem newManagedEquipment_resolverError_empty_witness :
    (NewManagedEquipmentDefault convertOkW txnW4 3 eqInstW).props = [] ∧
    GetPropertyValue (NewManagedEquipmentDefault convertOkW txnW4 3 eqInstW) "P"
      = GoVal.null := by
  have h := newManagedEquipment_resolverError_empty convertOkW txnW4 3 eqInstW
    "class not found" (by rfl)
  exact ⟨h.1, h.2.2.2 "P"⟩

/-- Spec-side reading of the TAGDATA handler loop: the list of per-
handler ack messages, each produced by invoking the handler (in
registration order, threading the shared context) and turning its
error into text via `GetAckMessage`. -/
def handlerAckMessages (tagInfo : StdMessageStruct) :
    List TagChangeHandlerPort → List (String × GoVal) → List String
  | [], _ => []
  | handler :: rest, ctx =>
    let r := handler.HandleTagChange tagInfo ctx
    handler.GetAckMessage r.1 :: handlerAckMessages tagInfo rest r.2

/-- Concatenation of a list of ack messages (Go `ackMsg += ...` over
the loop). -/
def joinAcks : List String → String
  | [] => ""
  | msg :: rest => msg ++ joinAcks rest

theorem runTagHandlers_fst (tagInfo : StdMessageStruct) :
    ∀ (handlers : List TagChangeHandlerPort) (ackMsg : String)
      (ctx : List (String × GoVal)),
      (runTagHandlers tagInfo handlers ackMsg ctx).1
        = ackMsg ++ joinAcks (handlerAckMessages tagInfo handlers ctx) := by
  intro handlers
  induction handlers with
  | nil => intro ackMsg ctx; simp [runTagHandlers, handlerAckMessages, joinAcks]
  | cons handler rest ih =>
    intro ackMsg ctx
    simp only [runTagHandlers, handlerAckMessages, joinAcks]
    rw [ih]
    simp [String.append_assoc]

/-- The TAGDATA_ACK reply `AcceptRequest` sends, carrying the
accumulated ack text (lines 163-168). -/
def tagdataAck (now : Nat) (msg : String) : EquipmentServiceRequest :=
  { ServiceType := ServiceType.TAGDATA_ACK, Time := now, Message := msg,
    TagInfo := zeroStdMessage }

/-- The SHUTDOWN_ACK reply `AcceptRequest` sends (lines 173-178). -/
def shutdownAck (now : Nat) : EquipmentServiceRequest :=
  { ServiceType := ServiceType.SHUTDOWN_ACK, Time := now,
    Message := "Shutdown request acknowledged", TagInfo := zeroStdMessage }

/-- The tag payload as the handlers see it: the request's payload with
its owning asset overwritten by the actor's equipment id (line 155). -/
def stampedTagInfo (s : managedEquipmentDefault) (rqst : EquipmentServiceRequest) :
    StdMessageStruct :=
  { rqst.TagInfo with OwningAssetId := s.EquipInst.Id }

/-- C6: every TAGDATA request is answered with a TAGDATA_ACK whose
message is the concatenation, in registration order, of every
handler's ack message for the owning-asset-stamped payload, and
`AcceptRequest` returns true regardless of handler errors. -/
theorem acceptRequest_tagdata (s : managedEquipmentDefault)
    (handlers : List TagChangeHandlerPort) (rqst : EquipmentServiceRequest)
    (now : Nat) (h : rqst.ServiceType = ServiceType.TAGDATA) :
    AcceptRequest s handlers rqst now =
      (some (tagdataAck now
        (joinAcks (handlerAckMessages (stampedTagInfo s rqst) handlers []))),
       true) := by
  simp only [AcceptRequest, h, tagdataAck, stampedTagInfo]
  rw [runTagHandlers_fst]
  simp

/-- C9: a SHUTDOWN request is answered with an ack whose ServiceType
is SHUTDOWN_ACK and `AcceptRequest` returns false (stop the loop); a
TAGDATA request makes `AcceptRequest` return true. -/
theorem acceptRequest_shutdown_stops :
    (∀ (s : managedEquipmentDefault) (handlers : List TagChangeHandlerPort)
        (rqst : EquipmentServiceRequest) (now : Nat),
      rqst.ServiceType = ServiceType.SHUTDOWN →
      AcceptRequest s handlers rqst now = (some (shutdownAck now), false) ∧
        (shutdownAck now).ServiceType = ServiceType.SHUTDOWN_ACK) ∧
    (∀ (s : managedEquipmentDefault) (handlers : List TagChangeHandlerPort)
        (rqst : EquipmentServiceRequest) (now : Nat),
      rqst.ServiceType = ServiceType.TAGDATA →
      (AcceptRequest s handlers rqst now).2 = true) := by
  constructor
  · intro s handlers rqst now h
    exact ⟨by simp [AcceptRequest, h, shutdownAck], rfl⟩
  · intro s handlers rqst now h
    simp [AcceptRequest, h]

/-- C5 counterexample: a request whose ServiceType (TAGDATA_ACK) is
neither TAGDATA nor SHUTDOWN falls through `AcceptRequest`'s switch:
no reply of any kind is produced (`none`) and the loop continues
(`true`) — the request is silently ignored, refuting the claim that it
is rejected with a descriptive error surfaced to the caller. -/
theorem acceptRequest_unknownType_counterexample :
    AcceptRequest actorW []
        { ServiceType := ServiceType.TAGDATA_ACK, Time := 0, Message := "",
          TagInfo := zeroStdMessage } 0
      = (none, true) :=
  rfl

/-- C5 (amended): for every request whose ServiceType is neither
TAGDATA nor SHUTDOWN, `AcceptRequest` silently ignores it: it sends no
ack, surfaces no error, and returns true. -/
theorem acceptRequest_unknownType_ignored (s : managedEquipmentDefault)
    (handlers : List TagChangeHandlerPort) (rqst : EquipmentServiceRequest)
    (now : Nat) (h1 : rqst.ServiceType ≠ ServiceType.TAGDATA)
    (h2 : rqst.ServiceType ≠ ServiceType.SHUTDOWN) :
    AcceptRequest s handlers rqst now = (none, true) := by
  rcases hst : rqst.ServiceType with _ | _ | _ | _
  · exact absurd hst h1
  · simp [AcceptRequest, hst]
  · exact absurd hst h2
  · simp [AcceptRequest, hst]

/-- Handler fixture that always fails; its ack text reports the error. -/
def handlerFailW : TagChangeHandlerPort :=
  { HandleTagChange := fun _ ctx => (some "boom", ctx),
    GetAckMessage := fun err =>
      match err with
      | some e => "h1 failed: " ++ e ++ ";"
      | none => "h1 ok;" }

/-- Handler fixture that always succeeds. -/
def handlerOkW : TagChangeHandlerPort :=
  { HandleTagChange := fun _ ctx => (none, ctx),
    GetAckMessage := fun err =>
      match err with
      | some _ => "h2 failed;"
      | none => "h2 ok;" }

/-- TAGDATA request fixture. -/
def rqstTagW : EquipmentServiceRequest :=
  { ServiceType := ServiceType.TAGDATA, Time := 1, Message := "",
    TagInfo := { OwningAssetId := "", ItemName := "temp", ItemValue := "150",
                 Category := "measure" } }

/-- SHUTDOWN request fixture. -/
def rqstShutdownW : EquipmentServiceRequest :=
  { ServiceType := ServiceType.SHUTDOWN, Time := 2, Message := "",
    TagInfo := zeroStdMessage }

/-- SHUTDOWN_ACK-typed request fixture (an undefined ServiceType for
`AcceptRequest`). -/
def rqstAckTypeW : EquipmentServiceRequest :=
  { ServiceType := ServiceType.SHUTDOWN_ACK, Time := 0, Message := "",
    TagInfo := zeroStdMessage }

/-- C6 witness: with one failing and one succeeding handler, the reply
is TAGDATA_ACK carrying both handlers' ack texts concatenated in
registration order, and the loop continues (true). -/
theorem acceptRequest_tagdata_witness :
    AcceptRequest actorW [handlerFailW, handlerOkW] rqstTagW 3 =
      (some (tagdataAck 3 "h1 failed: boom;h2 ok;"), true) := by
  have h := acceptRequest_tagdata actorW [handlerFailW, handlerOkW] rqstTagW 3 rfl
  exact h.trans (by decide)

/-- C9 witness: the SHUTDOWN fixture yields the SHUTDOWN_ACK reply and
false; the TAGDATA fixture yields true. -/
theorem acceptRequest_shutdown_stops_witness :
    AcceptRequest actorW [] rqstShutdownW 4 = (some (shutdownAck 4), false) ∧
      (shutdownAck 4).ServiceType = ServiceType.SHUTDOWN_ACK ∧
      (AcceptRequest actorW [handlerOkW] rqstTagW 3).2 = true :=
  ⟨(acceptRequest_shutdown_stops.1 actorW [] rqstShutdownW 4 rfl).1,
   (acceptRequest_shutdown_stops.1 actorW [] rqstShutdownW 4 rfl).2,
   acceptRequest_shutdown_stops.2 actorW [handlerOkW] rqstTagW 3 rfl⟩

/-- C5 amended witness: a SHUTDOWN_ACK-typed request is ignored — no
reply, no error, loop continues. -/
theorem acceptRequest_unknownType_ignored_witness :
    AcceptRequest actorW [handlerOkW] rqstAckTypeW 9 = (none, true) :=
  acceptRequest_unknownType_ignored actorW [handlerOkW] rqstAckTypeW 9
    (by decide) (by decide)

/-! ## Lookup lemmas for folded map inserts -/

theorem mapLookup_foldl_insert_of_forall_ne {α β : Type} (f : β → String) (g : β → α) :
    ∀ (l : List β) (base : List (String × α)) (k : String),
      (∀ x ∈ l, f x ≠ k) →
      mapLookup (l.foldl (fun a x => mapInsert a (f x) (g x)) base) k
        = mapLookup base k := by
  intro l
  induction l with
  | nil => intro base k _; rfl
  | cons y rest ih =>
    intro base k h
    simp only [List.foldl]
    rw [ih _ k (fun x hx => h x (List.mem_cons_of_mem y hx))]
    exact mapLookup_insert_ne base (f y) k (g y) (h y (List.mem_cons_self y rest))

theorem mapLookup_foldl_insert_of_mem {α β : Type} (f : β → String) (g : β → α) :
    ∀ (l : List β) (base : List (String × α)) (k : String) (x : β),
      (l.map f).Nodup → x ∈ l → f x = k →
      mapLookup (l.foldl (fun a z => mapInsert a (f z) (g z)) base) k
        = some (g x) := by
  intro l
  induction l with
  | nil => intro base k x _ hx _; simp at hx
  | cons y rest ih =>
    intro base k x hnd hx hfx
    simp only [List.map_cons, List.nodup_cons] at hnd
    rcases List.mem_cons.mp hx with hxy | hxr
    · subst hxy
      subst hfx
      simp only [List.foldl]
      rw [mapLookup_foldl_insert_of_forall_ne f g rest _ (f x)
        (fun z hz hc => hnd.1 (by rw [← hc]; exact List.mem_map_of_mem f hz))]
      exact mapLookup_insert_self base (f x) (g x)
    · simp only [List.foldl]
      exact ih _ k x hnd.2 hxr hfx

/-- C8: the variable environment `EvaluateEventDef` passes to every
`gval.Evaluate` call is `buildVals (GetPropertyMap mgdEq) evalContext`,
which starts from the actor's property-value map and then overlays
every extraContext entry: on a key collision the caller-supplied
context value, not the stored property value, is the binding in the
environment; keys absent from the context keep their property-derived
binding. -/
theorem buildVals_contextWins
    (propMap : List (String × EquipmentPropertyDescriptor))
    (ctx : List (String × GoVal)) (k : String) :
    ((ctx.map Prod.fst).Nodup →
      ∀ v, (k, v) ∈ ctx →
        mapLookup (buildVals propMap (some ctx)) k = some v) ∧
    ((∀ kv ∈ ctx, kv.1 ≠ k) →
      mapLookup (buildVals propMap (some ctx)) k
        = mapLookup (buildVals propMap none) k) ∧
    ((propMap.map Prod.fst).Nodup →
      ∀ d, (k, d) ∈ propMap →
        mapLookup (buildVals propMap none) k = some d.Value) := by
  refine ⟨?_, ?_, ?_⟩
  · intro hnd v hv
    simp only [buildVals]
    exact mapLookup_foldl_insert_of_mem Prod.fst Prod.snd ctx _ k (k, v) hnd hv rfl
  · intro hne
    simp only [buildVals]
    exact mapLookup_foldl_insert_of_forall_ne Prod.fst Prod.snd ctx _ k hne
  · intro hnd d hd
    simp only [buildVals]
    exact mapLookup_foldl_insert_of_mem Prod.fst (fun kv => kv.2.Value)
      propMap [] k (k, d) hnd hd rfl

/-- C8 witness: property temp=150, context temp=999 — the environment
binds "temp" to the context's 999; without a context it binds the
stored 150. -/
theorem buildVals_contextWins_witness :
    mapLookup (buildVals [("temp", descTempW)] (some [("temp", GoVal.num 999)]))
        "temp" = some (GoVal.num 999) ∧
    mapLookup (buildVals [("temp", descTempW)] none) "temp"
      = some (GoVal.num 150) :=
  ⟨(buildVals_contextWins [("temp", descTempW)] [("temp", GoVal.num 999)]
      "temp").1 (by decide) (GoVal.num 999) (by decide),
   by
    have h := (buildVals_contextWins [("temp", descTempW)] [] "temp").2.2
      (by decide) descTempW (by decide)
    simpa [descTempW] using h⟩

/-- C7: when the event definition resolves and the trigger expression
evaluates without error to boolean false or to a non-boolean value,
`EvaluateEventDef` returns fired=false, no payload and no error. -/
theorem evaluateEventDef_notFired_noError
    (s : eventDefEvaluatorDefault) (mgdEq : managedEquipmentDefault)
    (eventDefId : String) (evalContext : Option (List (String × GoVal)))
    (d : EventDefinition) (v : GoVal)
    (hdef : s.getEventDefinitionById eventDefId = Except.ok d)
    (htrig : s.gvalEvaluate d.TriggerExpression
      (buildVals (GetPropertyMap mgdEq) evalContext) = Except.ok v)
    (hv : v = GoVal.bool false ∨ ∀ b, v ≠ GoVal.bool b) :
    (EvaluateEventDef s mgdEq eventDefId evalContext).1 = false ∧
    (EvaluateEventDef s mgdEq eventDefId evalContext).2.2.1 = none ∧
    (EvaluateEventDef s mgdEq eventDefId evalContext).2.2.2 = none := by
  rcases hv with hfalse | hnb
  · subst hfalse
    refine ⟨?_, ?_, ?_⟩ <;>
      simp [EvaluateEventDef, hdef, htrig, parseBool_fmtBool]
  · cases v with
    | bool b => exact absurd rfl (hnb b)
    | null =>
      refine ⟨?_, ?_, ?_⟩ <;> simp [EvaluateEventDef, hdef, htrig]
    | num n =>
      refine ⟨?_, ?_, ?_⟩ <;> simp [EvaluateEventDef, hdef, htrig]
    | str t =>
      refine ⟨?_, ?_, ?_⟩ <;> simp [EvaluateEventDef, hdef, htrig]

/-- Event definition fixture whose trigger "trigF" evaluates false. -/
def dFalseW : EventDefinition :=
  { Id := "ev", TriggerExpression := "trigF",
    PayloadFields := [{ Name := "flag", Expression := "f1" }],
    PayloadProperties := [{ Name := "temp" }] }

/-- Event definition fixture whose trigger "trigN" evaluates to a
non-boolean value. -/
def dNonBoolW : EventDefinition :=
  { Id := "evN", TriggerExpression := "trigN", PayloadFields := [],
    PayloadProperties := [] }

/-- Evaluator fixture serving `dFalseW` and `dNonBoolW`; "trigF"
evaluates to false, "trigN" to the number 7. -/
def evalrW : eventDefEvaluatorDefault :=
  { getEventDefinitionById := fun id =>
      if id = "ev" then Except.ok dFalseW
      else if id = "evN" then Except.ok dNonBoolW
      else Except.error "event definition not found",
    gvalEvaluate := fun expr _ =>
      if expr = "trigF" then Except.ok (GoVal.bool false)
      else if expr = "trigN" then Except.ok (GoVal.num 7)
      else Except.error "unknown expression" }

/-- C7 witness: both the false trigger ("ev") and the non-boolean
trigger ("evN") yield fired=false, payload=none, error=none. -/
theorem evaluateEventDef_notFired_noError_witness :
    (EvaluateEventDef evalrW actorW "ev" none).1 = false ∧
    (EvaluateEventDef evalrW actorW "ev" none).2.2.1 = none ∧
    (EvaluateEventDef evalrW actorW "ev" none).2.2.2 = none ∧
    (EvaluateEventDef evalrW actorW "evN" none).1 = false ∧
    (EvaluateEventDef evalrW actorW "evN" none).2.2.1 = none ∧
    (EvaluateEventDef evalrW actorW "evN" none).2.2.2 = none := by
  have h1 := evaluateEventDef_notFired_noError evalrW actorW "ev" none dFalseW
    (GoVal.bool false) rfl rfl (Or.inl rfl)
  have h2 := evaluateEventDef_notFired_noError evalrW actorW "evN" none dNonBoolW
    (GoVal.num 7) rfl rfl (Or.inr (fun b => by simp))
  exact ⟨h1.1, h1.2.1, h1.2.2, h2.1, h2.2.1, h2.2.2⟩

theorem evalPayloadFields_firstFailure (s : eventDefEvaluatorDefault)
    (vals : List (String × GoVal)) (w : PayloadField → GoVal) :
    ∀ (pre : List PayloadField) (bad : PayloadField) (post : List PayloadField)
      (e : String) (acc : List (String × GoVal)),
      (∀ f ∈ pre, s.gvalEvaluate f.Expression vals = Except.ok (w f)) →
      s.gvalEvaluate bad.Expression vals = Except.error e →
      evalPayloadFields s vals (pre ++ bad :: post) acc =
        (pre.foldl (fun m f => mapInsert m f.Name (w f)) acc, some e) := by
  intro pre
  induction pre with
  | nil =>
    intro bad post e acc _ hbad
    simp [evalPayloadFields, hbad]
  | cons f rest ih =>
    intro bad post e acc hpre hbad
    have hf := hpre f (List.mem_cons_self f rest)
    simp only [List.cons_append, evalPayloadFields, hf, List.foldl]
    exact ih bad post e _ (fun x hx => hpre x (List.mem_cons_of_mem f hx)) hbad

theorem mapLookup_addPayloadProperties (mgdEq : managedEquipmentDefault) (k : String) :
    ∀ (payloadProps : List PayloadProperty) (m0 : List (String × GoVal)),
      mapLookup (addPayloadProperties mgdEq payloadProps m0) k =
        if payloadProps.any (fun p => p.Name == k) then
          some (GetPropertyValue mgdEq k)
        else mapLookup m0 k := by
  intro pps
  induction pps with
  | nil => intro m0; simp [addPayloadProperties]
  | cons p rest ih =>
    intro m0
    rw [show addPayloadProperties mgdEq (p :: rest) m0
        = addPayloadProperties mgdEq rest
            (mapInsert m0 p.Name (GetPropertyValue mgdEq p.Name)) from rfl]
    rw [ih]
    by_cases hr : rest.any (fun q => q.Name == k)
    · simp [List.any_cons, hr]
    · by_cases hp : p.Name = k
      · subst hp
        simp [List.any_cons, hr, mapLookup_insert_self]
      · simp [List.any_cons, hr, hp, mapLookup_insert_ne _ _ _ _ hp]

theorem evaluateEventDef_trigTrue
    (s : eventDefEvaluatorDefault) (mgdEq : managedEquipmentDefault)
    (eventDefId : String) (evalContext : Option (List (String × GoVal)))
    (d : EventDefinition)
    (hdef : s.getEventDefinitionById eventDefId = Except.ok d)
    (htrig : s.gvalEvaluate d.TriggerExpression
      (buildVals (GetPropertyMap mgdEq) evalContext)
      = Except.ok (GoVal.bool true)) :
    EvaluateEventDef s mgdEq eventDefId evalContext =
      (true, some d,
       some (addPayloadProperties mgdEq d.PayloadProperties
         (evalPayloadFields s (buildVals (GetPropertyMap mgdEq) evalContext)
           d.PayloadFields []).1),
       (evalPayloadFields s (buildVals (GetPropertyMap mgdEq) evalContext)
         d.PayloadFields []).2) := by
  simp [EvaluateEventDef, hdef, htrig, parseBool_fmtBool]

/-- C2: when the trigger fired but a payload-field expression fails,
evaluation of later fields stops — the field part of the payload holds
exactly the fields before the failing one — yet every
PayloadProperties entry is still resolved by direct property lookup
and added to the payload, and the call returns fired=true together
with that partial payload and the first field error. -/
theorem evaluateEventDef_fieldFailure
    (s : eventDefEvaluatorDefault) (mgdEq : managedEquipmentDefault)
    (eventDefId : String) (evalContext : Option (List (String × GoVal)))
    (d : EventDefinition) (pre : List PayloadField) (bad : PayloadField)
    (post : List PayloadField) (e : String) (w : PayloadField → GoVal)
    (hdef : s.getEventDefinitionById eventDefId = Except.ok d)
    (htrig : s.gvalEvaluate d.TriggerExpression
      (buildVals (GetPropertyMap mgdEq) evalContext)
      = Except.ok (GoVal.bool true))
    (hfields : d.PayloadFields = pre ++ bad :: post)
    (hpre : ∀ f ∈ pre, s.gvalEvaluate f.Expression
      (buildVals (GetPropertyMap mgdEq) evalContext) = Except.ok (w f))
    (hbad : s.gvalEvaluate bad.Expression
      (buildVals (GetPropertyMap mgdEq) evalContext) = Except.error e) :
    EvaluateEventDef s mgdEq eventDefId evalContext =
      (true, some d,
       some (addPayloadProperties mgdEq d.PayloadProperties
         (pre.foldl (fun m f => mapInsert m f.Name (w f)) [])),
       some e) ∧
    ∀ p ∈ d.PayloadProperties,
      mapLookup (addPayloadProperties mgdEq d.PayloadProperties
          (pre.foldl (fun m f => mapInsert m f.Name (w f)) [])) p.Name
        = some (GetPropertyValue mgdEq p.Name) := by
  constructor
  · rw [evaluateEventDef_trigTrue s mgdEq eventDefId evalContext d hdef htrig,
      hfields,
      evalPayloadFields_firstFailure s _ w pre bad post e [] hpre hbad]
  · intro p hp
    rw [mapLookup_addPayloadProperties]
    have hany : d.PayloadProperties.any (fun q => q.Name == p.Name) = true :=
      List.any_eq_true.mpr ⟨p, hp, by simp⟩
    rw [if_pos hany]

/-- Event definition fixture with three payload fields of which the
second ("fbad") fails, and one payload property. -/
def dFieldsW : EventDefinition :=
  { Id := "evF", TriggerExpression := "trig",
    PayloadFields := [{ Name := "a", Expression := "f1" },
                      { Name := "b", Expression := "fbad" },
                      { Name := "c", Expression := "f1" }],
    PayloadProperties := [{ Name := "temp" }] }

/-- Evaluator fixture serving `dFieldsW`: "trig" evaluates true, "f1"
to 1, anything else fails with "undefined variable". -/
def evalrFieldW : eventDefEvaluatorDefault :=
  { getEventDefinitionById := fun id =>
      if id = "evF" then Except.ok dFieldsW
      else Except.error "event definition not found",
    gvalEvaluate := fun expr _ =>
      if expr = "trig" then Except.ok (GoVal.bool true)
      else if expr = "f1" then Except.ok (GoVal.num 1)
      else Except.error "undefined variable" }

/-- C2 witness: field "a" evaluated, "b" failed, "c" never evaluated,
the property "temp"=150 still added; fired=true and the first field
error returned. -/
theorem evaluateEventDef_fieldFailure_witness :
    EvaluateEventDef evalrFieldW actorW "evF" none =
      (true, some dFieldsW,
       some [("a", GoVal.num 1), ("temp", GoVal.num 150)],
       some "undefined variable") := by
  have h := evaluateEventDef_fieldFailure evalrFieldW actorW "evF" none dFieldsW
    [{ Name := "a", Expression := "f1" }] { Name := "b", Expression := "fbad" }
    [{ Name := "c", Expression := "f1" }] "undefined variable"
    (fun _ => GoVal.num 1) rfl rfl rfl
    (by intro f hf; rw [List.mem_singleton] at hf; subst hf; rfl) rfl
  exact h.1.trans (by decide)
